import Mathlib

/-!  Verification of the typed-msg envelope protocol and dispatch core

Shallow embedding of the typed-msg library (a typed request/response layer on
top of the Chrome extension message transport).  The definitions below are
translated from the TypeScript sources:

* `src/utils/Failure.ts` — the `Failure` sentinel class and the `failure`
  constructor helper (`String(data)` variant), plus the revision at
  `src/utils/response.ts` lines 73–78 (`data ?? ''` variant, `failureV` here);
* `src/utils/Success.ts` — the `success` helper (identity on its argument)
  and the `Success` classification (`!(value instanceof Failure)`);
* `src/services/Receiver.ts` — the `chrome.runtime.onMessage` listener
  (dispatch core) and `Receiver.on` (handler registration);
* the v3 `createMessaging` factory — the sender proxy that sends a request
  envelope, decodes the response, and classifies communication errors.

JavaScript values carried over the transport are modelled by the inductive
`Value` (structurally-cloneable data; numbers are modelled as integers since
no claim depends on floating point).  Class instances that can appear in the
handler layer but not on the wire (`Error`, `Failure`) are modelled by
separate types.
-/

/-- A structurally-cloneable JavaScript value (the data that can travel over
`chrome.runtime.sendMessage`).  Numbers are modelled as integers. -/
inductive Value where
  | undefined : Value
  | null : Value
  | bool : Bool → Value
  | num : Int → Value
  | str : String → Value
  | arr : List Value → Value
  | obj : List (String × Value) → Value


/-- JavaScript truthiness of a `Value` (`undefined`, `null`, `false`, `0`
and the empty string are falsy; every other value is truthy). -/
def truthy : Value → Bool
  | .undefined => false
  | .null => false
  | .bool b => b
  | .num n => n != 0
  | .str s => s ≠ ""
  | .arr _ => true
  | .obj _ => true

mutual

/-- JavaScript `String(v)` on a structurally-cloneable value. -/
def jsString : Value → String
  | .undefined => "undefined"
  | .null => "null"
  | .bool b => if b then "true" else "false"
  | .num n => toString n
  | .str s => s
  | .arr xs => jsStringElems xs
  | .obj _ => "[object Object]"

/-- `Array.prototype.toString` joins the stringified elements with commas;
`null` and `undefined` elements render as the empty string. -/
def jsStringElems : List Value → String
  | [] => ""
  | [x] =>
      match x with
      | .undefined => ""
      | .null => ""
      | v => jsString v
  | x :: xs =>
      (match x with
       | .undefined => ""
       | .null => ""
       | v => jsString v) ++ "," ++ jsStringElems xs

end

/-- A JavaScript `Error` instance: a `name` (such as `"Error"`) and a
`message`. -/
structure JSError where
  name : String
  message : String
  deriving DecidableEq, Repr

/-- `Error.prototype.toString`: the name, then `": " ++ message` when the
message is nonempty. -/
def JSError.toStr (e : JSError) : String :=
  if e.message = "" then e.name else e.name ++ ": " ++ e.message

/-- An arbitrary JavaScript value as seen by `catch` clauses and by the
`failure` helper: either a plain cloneable value or an `Error` instance. -/
inductive JSVal where
  | value : Value → JSVal
  | errObj : JSError → JSVal


/-- JavaScript `String(x)` on an arbitrary value. -/
def JSVal.toStr : JSVal → String
  | .value v => jsString v
  | .errObj e => JSError.toStr e

/-- `e instanceof Error ? e.message : String(e)` — the expression both the
Receiver listener (reply on handler throw) and the sender proxy (building the
MessagingError message) apply to a caught exception. -/
def errMsgOf : JSVal → String
  | .errObj e => e.message
  | .value v => jsString v

/-- The `Failure` sentinel class of `src/utils/Failure.ts`: carries one
immutable string `message`; `instanceof Failure` classifies a response as a
business failure. -/
structure Failure where
  message : String
  deriving DecidableEq, Repr

/-- `failure(data?: unknown)` from `src/utils/Failure.ts` lines 58–60:
`new Failure(InternalKey, String(data))`.  A call with no argument passes
`undefined`. -/
def failure (data : JSVal := .value .undefined) : Failure :=
  ⟨JSVal.toStr data⟩

/-- The revision of the helper at `src/utils/response.ts` lines 73–78:
`failure(data?: string | Error)` yielding
`new Failure(InternalKey, data instanceof Error ? String(data) : (data ?? ''))`. -/
def failureV (data : Option (String ⊕ JSError) := none) : Failure :=
  match data with
  | none => ⟨""⟩
  | some (.inl s) => ⟨s⟩
  | some (.inr e) => ⟨JSError.toStr e⟩

/-- `success(data?)` from `src/utils/Success.ts`: the helper returns its
argument unchanged (`return data`); a call with no argument returns
`undefined`. -/
def success (data : Value := .undefined) : Value :=
  data

/-- A handler result as the dispatch core sees it: any JavaScript value,
discriminated by `res instanceof Failure`.  `Success` overrides
`Symbol.hasInstance` with `!(value instanceof Failure)`, so every non-Failure
value classifies as a Success. -/
inductive Res where
  | fail : Failure → Res
  | value : Value → Res


/-- `value instanceof Failure`. -/
def Res.isFailure : Res → Bool
  | .fail _ => true
  | .value _ => false

/-- `value instanceof Success`, i.e. `!(value instanceof Failure)`
(`Success.[Symbol.hasInstance]` in `src/utils/Success.ts`). -/
def Res.isSuccess (r : Res) : Bool :=
  !r.isFailure

/-- A wire response envelope: a JavaScript object read through its `success`,
`data`, `message` and `error` properties.  `none` means the property is
absent (reads as `undefined`); `some v` means the property is present with
value `v` (which may itself be `undefined`). -/
structure ResponseEnvelope where
  success : Option Value := none
  data : Option Value := none
  message : Option Value := none
  error : Option Value := none


/-- Property read on an envelope field: an absent property reads as
`undefined`. -/
def fieldVal (f : Option Value) : Value :=
  f.getD .undefined

/-- The reply the Receiver listener builds on successful handler completion
(`src/services/Receiver.ts` lines 61–65):
`sendMessage({ success: !(res instanceof Failure),
data: res instanceof Failure ? res.message : res })`. -/
def encodeResult (res : Res) : ResponseEnvelope :=
  { success := some (.bool (!res.isFailure))
    data := some (match res with
      | .fail f => .str f.message
      | .value v => v) }

/-- The envelope shape asserted by the specification for `encodeResult`
(spec §4.1): `{ success: false, message: result.message }` for a Failure,
`{ success: true }` for an undefined payload, `{ success: true, data }`
otherwise.  Stated from the spec for comparison with `encodeResult`. -/
def encodeResultSpec : Res → ResponseEnvelope
  | .fail f => { success := some (.bool false), message := some (.str f.message) }
  | .value .undefined => { success := some (.bool true) }
  | .value v => { success := some (.bool true), data := some v }

/-- JavaScript property access `v[k]` (with optional chaining as in
`message?.scope`): `undefined` on anything that is not an object with the
property; on an object, the first binding of the key. -/
def getField (v : Value) (k : String) : Value :=
  match v with
  | .obj fs =>
      match fs.find? (fun p => p.1 = k) with
      | some p => p.2
      | none => .undefined
  | _ => .undefined

/-- `typeof v === 'string'`. -/
def isStrVal : Value → Bool
  | .str _ => true
  | _ => false

/-- The string carried by a `Value` known to be a string. -/
def asStr : Value → String
  | .str s => s
  | _ => ""

/-- `Receiver._typed(message)`:
`typeof message?.scope === 'string' && typeof message?.name === 'string'`. -/
def typedMsg (message : Value) : Bool :=
  isStrVal (getField message "scope") && isStrVal (getField message "name")

/-- The `chrome.runtime.MessageSender` metadata forwarded to handlers.  The
dispatch core never inspects it, so it is opaque here. -/
abbrev MessageSender := Unit

/-- Outcome of one handler invocation, as observed by
`await Promise.resolve(handler(req, sender))`: a resolved result, or a thrown
exception / rejected promise carrying an arbitrary value. -/
inductive HandlerOutcome where
  | ok : Res → HandlerOutcome
  | throws : JSVal → HandlerOutcome

/-- A registered message handler `(req, sender) => result`. -/
abbrev Handler := Value → MessageSender → HandlerOutcome

/-- The own properties of the `_handlers` registry of one `Receiver`: the
message-name-to-handler bindings created by `this._handlers[name] = handler`.
The registry object itself is the plain object literal `{}`
(`private _handlers: MessageHandlers<TDefs> = {}`), so property reads on it
also see `Object.prototype` — see `objectProtoKeys`. -/
abbrev Registry := String → Option Handler

/-- The property keys of `Object.prototype` (the ECMAScript intrinsic: its
seven standard methods plus `constructor`, the Annex B
`__defineGetter__` / `__defineSetter__` / `__lookupGetter__` /
`__lookupSetter__` methods and the `__proto__` accessor).  A plain object
literal `{}` inherits all of them, so on the `_handlers` object
`name in this._handlers` is true at each of these keys even when nothing was
ever registered, and `this._handlers[name]` finds the inherited member. -/
def objectProtoKeys : List String :=
  ["constructor", "hasOwnProperty", "isPrototypeOf", "propertyIsEnumerable",
   "toLocaleString", "toString", "valueOf", "__defineGetter__",
   "__defineSetter__", "__lookupGetter__", "__lookupSetter__", "__proto__"]

/-- The `in` operator applied to the `_handlers` object
(`name in this._handlers`, `src/services/Receiver.ts` line 107): true for an
own (registered) key and for every key inherited from `Object.prototype`. -/
def nameIn (handlers : Registry) (name : String) : Bool :=
  (handlers name).isSome || objectProtoKeys.contains name

/-- The lookup `const handler = this._handlers[name]` followed by the
`if (!handler)` test (`src/services/Receiver.ts` lines 33–34): an own
(registered) handler is found first; otherwise a key of `Object.prototype`
finds the inherited member, which is truthy (a built-in function, or the
`Object.prototype` object itself for the `__proto__` getter), so the
listener takes the handler path with it.  What that inherited member does
when invoked as `handler(req, sender)` is standard-library behavior outside
this repository's code, so it is supplied as the parameter `proto`; the
theorems below quantify over it, and thus hold for the actual behavior. -/
def lookupHandler (handlers : Registry) (proto : String → Handler)
    (name : String) : Option Handler :=
  match handlers name with
  | some h => some h
  | none => if objectProtoKeys.contains name then some (proto name) else none

/-- The observable configuration of the Receiver-side hooks in
`MessagingOptions`: whether each hook is configured
(`options.onRequest?.(...)` / `options.onResponse?.(...)`), and whether the
configured hook throws when invoked.  Both hook invocations sit in a
`try { ... } catch (e) { console.error(e) }`, so a throwing hook only logs:
the listener result cannot depend on the `...Throws` fields. -/
structure ReceiverOptions where
  onRequestConfigured : Bool
  onRequestThrows : Bool
  onResponseConfigured : Bool
  onResponseThrows : Bool

/-- Observable events of one listener activation, in execution order. -/
inductive Event where
  | onRequestCall : (scope name : String) → (req : Value) → Event
  | onResponseCall : (scope name : String) → (req : Value) → (res : Res) → Event
  | reply : ResponseEnvelope → Event

/-- `true` exactly on `onResponseCall` events. -/
def Event.isOnResponseCall : Event → Bool
  | .onResponseCall _ _ _ _ => true
  | _ => false

/-- `true` exactly on `reply` events. -/
def Event.isReply : Event → Bool
  | .reply _ => true
  | _ => false

/-- Result of one activation of the `chrome.runtime.onMessage` listener:
the listener's return value (`some true` for `return true`, `none` when the
listener falls off or executes a bare `return`, i.e. returns `undefined`),
and the trace of hook calls and `sendMessage` replies it performs. -/
structure ListenResult where
  retVal : Option Bool
  events : List Event

/-- The `chrome.runtime.onMessage` listener installed by the `Receiver`
constructor (`src/services/Receiver.ts` lines 28–69), for one incoming
message delivered with the given handler registry state.

Faithful to the source: an untyped message or a scope mismatch is ignored
(no reply, returns `undefined`); when `this._handlers[name]` finds nothing —
no registration and no `Object.prototype` key — the listener replies
`{ error: 'ハンドラーが未定義です。' }` synchronously and returns `undefined`;
otherwise (a registered handler, or the truthy member inherited from
`Object.prototype` for names such as `toString`) `onRequest` fires
(exceptions logged), the found value runs as the handler inside the async
block, a thrown handler yields an `{ error }` reply and skips `onResponse`,
and a completed handler fires `onResponse` (exceptions logged) and then
replies with the encoded result; on this path the listener returns
`true`. -/
def Receiver.listener (opts : ReceiverOptions) (handlers : Registry)
    (proto : String → Handler) (selfScope : String) (message : Value)
    (sender : MessageSender) : ListenResult :=
  if ¬ typedMsg message then { retVal := none, events := [] }
  else
    let scope := asStr (getField message "scope")
    let name := asStr (getField message "name")
    let req := getField message "req"
    if scope ≠ selfScope then { retVal := none, events := [] }
    else
      match lookupHandler handlers proto name with
      | none =>
          { retVal := none
            events := [.reply { error := some (.str "ハンドラーが未定義です。") }] }
      | some handler =>
          let reqEvents :=
            if opts.onRequestConfigured then [Event.onRequestCall scope name req]
            else []
          match handler req sender with
          | .throws e =>
              { retVal := some true
                events := reqEvents ++ [.reply { error := some (.str (errMsgOf e)) }] }
          | .ok res =>
              let respEvents :=
                if opts.onResponseConfigured then
                  [Event.onResponseCall scope name req res]
                else []
              { retVal := some true
                events := reqEvents ++ respEvents ++ [.reply (encodeResult res)] }

/-- The reply envelope a listener activation sent, if any. -/
def replyOf (r : ListenResult) : Option ResponseEnvelope :=
  r.events.findSome? (fun e =>
    match e with
    | .reply env => some env
    | _ => none)

/-- `Receiver.on(name, handler)` (`src/services/Receiver.ts` lines 103–115):
throws when `name in this._handlers` — which, the registry being a plain
object literal, is also true at every `Object.prototype` key — and otherwise
stores the handler.  `Except.error` carries the thrown error message. -/
def Receiver.on (selfScope : String) (handlers : Registry) (name : String)
    (handler : Handler) : Except String Registry :=
  if nameIn handlers name then
    .error ("同じ名前のハンドラーは複数登録できません。（スコープ: \"" ++ selfScope
      ++ "\", 名前: \"" ++ name ++ "\"）")
  else
    .ok (fun n => if n = name then some handler else handlers n)

/-- The registry state after a call to `Receiver.on`: a throw aborts before
the assignment `this._handlers[name] = handler`, leaving the registry
unchanged. -/
def registryAfter (selfScope : String) (handlers : Registry) (name : String)
    (handler : Handler) : Registry :=
  match Receiver.on selfScope handlers name handler with
  | .ok updated => updated
  | .error _ => handlers

/-- The class `errors/MessagingError.ts`, staged in the sources at
`src/test/index.ts` lines 156–169:
`export class MessagingError extends Error` whose constructor takes
`(readonly scope: string, readonly name: string, message: string)` and calls
`super(message)` — i.e. a record of the `scope`, the `name` and the error
`message`, denoting a transport-or-dispatch-level failure as opposed to a
business `Failure`. -/
structure MessagingError where
  scope : String
  name : String
  message : String
  deriving DecidableEq, Repr

/-- Sender-side options: `options.onError?.(error)` — an optional hook typed
`(error: MessagingError) => Failure | void`. -/
structure SenderOptions where
  onError : Option (MessagingError → Option Failure)

/-- What `await chrome.runtime.sendMessage({ scope, name, req })` does:
deliver a response envelope, or fail (connection problem, no listener),
throwing an exception into the sender's `try`. -/
inductive TransportOutcome where
  | delivered : ResponseEnvelope → TransportOutcome
  | failed : JSVal → TransportOutcome

/-- How one proxied call ends: resolving with a value (a reconstructed
`Failure` or a plain payload), or rejecting with a `MessagingError`. -/
inductive CallOutcome where
  | resolved : Res → CallOutcome
  | rejected : MessagingError → CallOutcome

/-- Result of one proxied sender call: the promise outcome, the
`MessagingError` constructed in the `catch` block (if that block ran), and
whether `options.onError` was invoked. -/
structure SendResult where
  outcome : CallOutcome
  caught : Option MessagingError
  onErrorInvoked : Bool

/-- The `catch` block of the sender proxy:
`errorMessage = e instanceof Error ? e.message : String(e)`;
`error = new MessagingError(scope, name, errorMessage)`;
`result = options.onError?.(error)`;
`if (result instanceof Failure) return result; throw error`. -/
def senderCatch (opts : SenderOptions) (scope name : String) (e : JSVal) :
    SendResult :=
  let errorMessage := errMsgOf e
  let error : MessagingError := ⟨scope, name, errorMessage⟩
  match opts.onError with
  | none => { outcome := .rejected error, caught := some error, onErrorInvoked := false }
  | some hook =>
      match hook error with
      | some f =>
          { outcome := .resolved (.fail f), caught := some error, onErrorInvoked := true }
      | none =>
          { outcome := .rejected error, caught := some error, onErrorInvoked := true }

/-- One call through the sender proxy (v3 `createMessaging`, the `get` trap):

```
try \x7b
  const message = await chrome.runtime.sendMessage(\x7b scope, name, req \x7d)
  if (message.error) throw message.error
  return message.success ? message.data : failure(message.data)
\x7d catch (e) \x7b ... \x7d
```

A transport failure throws into the `catch`; a delivered envelope whose
`error` property is truthy is thrown (as a plain value) into the `catch`;
otherwise the call resolves with `message.data` when `message.success` is
truthy, else with `failure(message.data)`. -/
def senderCall (opts : SenderOptions) (scope name : String)
    (t : TransportOutcome) : SendResult :=
  match t with
  | .failed e => senderCatch opts scope name e
  | .delivered env =>
      let errV := fieldVal env.error
      if truthy errV then senderCatch opts scope name (.value errV)
      else
        let successV := fieldVal env.success
        let dataV := fieldVal env.data
        { outcome := .resolved
            (if truthy successV then .value dataV else .fail (failure (.value dataV)))
          caught := none
          onErrorInvoked := false }

/-- The request envelope `{ scope, name, req }` the sender proxy builds. -/
def requestMsg (scope name : String) (req : Value) : Value :=
  .obj [("scope", .str scope), ("name", .str name), ("req", req)]

/-- End-to-end composition of one call: the sender's request envelope is
delivered to the Receiver listener; if the listener sends a reply, that
envelope is delivered back to the sender proxy (the transport performs a
structured clone, which is the identity on `Value` data).  `none` when the
listener never replies (which cannot happen for an accepted message). -/
def roundTrip (ropts : ReceiverOptions) (sopts : SenderOptions)
    (handlers : Registry) (proto : String → Handler) (scope name : String)
    (req : Value) (sender : MessageSender) : Option SendResult :=
  match replyOf (Receiver.listener ropts handlers proto scope
      (requestMsg scope name req) sender) with
  | some env => some (senderCall sopts scope name (.delivered env))
  | none => none

/-- A one-name registry binding `name` to `handler`. -/
def singleRegistry (name : String) (handler : Handler) : Registry :=
  fun n => if n = name then some handler else none

/-- One concrete choice for the behavior of the members inherited from
`Object.prototype` when invoked as handlers, used only to instantiate the
closed witness and counterexample statements; the universal theorems hold
for every such behavior. -/
def protoSample : String → Handler :=
  fun _ _ _ => .ok (.value .undefined)

/-! ## Helper lemmas -/

theorem typedMsg_requestMsg (scope name : String) (req : Value) :
    typedMsg (requestMsg scope name req) = true := rfl

theorem getField_requestMsg_scope (scope name : String) (req : Value) :
    getField (requestMsg scope name req) "scope" = .str scope := rfl

theorem getField_requestMsg_name (scope name : String) (req : Value) :
    getField (requestMsg scope name req) "name" = .str name := rfl

theorem getField_requestMsg_req (scope name : String) (req : Value) :
    getField (requestMsg scope name req) "req" = req := rfl

/-- An own (registered) binding is found first by the lookup
`this._handlers[name]`. -/
theorem lookupHandler_own (handlers : Registry) (proto : String → Handler)
    (name : String) (handler : Handler) (hreg : handlers name = some handler) :
    lookupHandler handlers proto name = some handler := by
  simp [lookupHandler, hreg]

/-- Computation of one listener activation on a well-formed request envelope
whose scope matches and whose name lookup finds a handler (an own
registration, or an inherited `Object.prototype` member). -/
theorem Receiver.listener_found (opts : ReceiverOptions) (handlers : Registry)
    (proto : String → Handler) (scope name : String) (req : Value)
    (sender : MessageSender) (handler : Handler)
    (hreg : lookupHandler handlers proto name = some handler) :
    Receiver.listener opts handlers proto scope (requestMsg scope name req) sender =
      match handler req sender with
      | .throws e =>
          { retVal := some true
            events :=
              (if opts.onRequestConfigured then [Event.onRequestCall scope name req]
               else []) ++ [.reply { error := some (.str (errMsgOf e)) }] }
      | .ok res =>
          { retVal := some true
            events :=
              (if opts.onRequestConfigured then [Event.onRequestCall scope name req]
               else []) ++
              (if opts.onResponseConfigured then [Event.onResponseCall scope name req res]
               else []) ++ [.reply (encodeResult res)] } := by
  cases hout : handler req sender with
  | ok res =>
      simp [Receiver.listener, typedMsg_requestMsg, getField_requestMsg_scope,
        getField_requestMsg_name, getField_requestMsg_req, asStr, hreg, hout]
  | throws e =>
      simp [Receiver.listener, typedMsg_requestMsg, getField_requestMsg_scope,
        getField_requestMsg_name, getField_requestMsg_req, asStr, hreg, hout]

/-- The reply of a dispatch whose handler is found. -/
theorem replyOf_listener_found (opts : ReceiverOptions) (handlers : Registry)
    (proto : String → Handler) (scope name : String) (req : Value)
    (sender : MessageSender) (handler : Handler)
    (hreg : lookupHandler handlers proto name = some handler) :
    replyOf (Receiver.listener opts handlers proto scope (requestMsg scope name req) sender) =
      some (match handler req sender with
            | .throws e => { error := some (.str (errMsgOf e)) }
            | .ok res => encodeResult res) := by
  rw [Receiver.listener_found opts handlers proto scope name req sender handler hreg]
  cases handler req sender <;>
    cases opts.onRequestConfigured <;>
    cases opts.onResponseConfigured <;>
    simp [replyOf, List.findSome?]

/-- End-to-end computation of one call whose handler is found. -/
theorem roundTrip_found (ropts : ReceiverOptions) (sopts : SenderOptions)
    (handlers : Registry) (proto : String → Handler) (scope name : String)
    (req : Value) (sender : MessageSender) (handler : Handler)
    (hreg : lookupHandler handlers proto name = some handler) :
    roundTrip ropts sopts handlers proto scope name req sender =
      some (senderCall sopts scope name (.delivered
        (match handler req sender with
         | .throws e => { error := some (.str (errMsgOf e)) }
         | .ok res => encodeResult res))) := by
  rw [roundTrip,
    replyOf_listener_found ropts handlers proto scope name req sender handler hreg]

/-! ## Claims -/

/-- C1 (counterexample): the envelope the Dispatcher actually sends for
`failure("m")` differs from the claimed `{ success: false, message: "m" }`:
its `message` property is absent, the Failure's message travels under `data`,
and the success envelope of an undefined payload still carries a `data`
property. -/
theorem C1_envelope_counterexample :
    encodeResult (.fail ⟨"m"⟩) ≠ encodeResultSpec (.fail ⟨"m"⟩) ∧
    (encodeResult (.fail ⟨"m"⟩)).message = none ∧
    (encodeResult (.fail ⟨"m"⟩)).data = some (.str "m") ∧
    (encodeResult (.value .undefined)).data = some .undefined ∧
    encodeResultSpec (.value .undefined) = { success := some (.bool true) } := by
  refine ⟨fun h => ?_, rfl, rfl, rfl, rfl⟩
  simpa [encodeResult, encodeResultSpec] using congrArg ResponseEnvelope.data h

/-- C1 (amended): for every handler result `res`, the response envelope the
Dispatcher sends is `{ success: !(res instanceof Failure), data: d }` where
`d` is `res.message` when `res` is a Failure and the payload itself (even
when `undefined`) otherwise; no `message` or `error` property is present, and
the Failure's message travels under the key `data`. -/
theorem C1_envelope_shape (opts : ReceiverOptions) (handlers : Registry)
    (proto : String → Handler) (scope name : String) (req : Value)
    (sender : MessageSender) (handler : Handler) (res : Res)
    (hreg : handlers name = some handler)
    (hrun : handler req sender = .ok res) :
    replyOf (Receiver.listener opts handlers proto scope (requestMsg scope name req) sender) =
      some { success := some (.bool (!res.isFailure))
             data := some (match res with
                           | .fail f => .str f.message
                           | .value v => v)
             message := none
             error := none } := by
  rw [replyOf_listener_found opts handlers proto scope name req sender handler
    (lookupHandler_own handlers proto name handler hreg)]
  simp only [hrun]
  cases res <;> rfl

/-- C1 (witness): the amended envelope shape evaluated on a registry with one
handler that returns `failure("m")`. -/
theorem C1_envelope_witness :
    replyOf (Receiver.listener ⟨true, false, true, false⟩
        (singleRegistry "n" (fun _ _ => .ok (.fail ⟨"m"⟩))) protoSample "s"
        (requestMsg "s" "n" .undefined) ()) =
      some { success := some (.bool false), data := some (.str "m")
             message := none, error := none } := by
  simpa using C1_envelope_shape ⟨true, false, true, false⟩
    (singleRegistry "n" (fun _ _ => .ok (.fail ⟨"m"⟩))) protoSample "s" "n" .undefined ()
    (fun _ _ => .ok (.fail ⟨"m"⟩)) (.fail ⟨"m"⟩) (by simp [singleRegistry]) rfl

/-- C2: for every string `m`, when the matched handler returns `failure(m)`
the caller's call resolves with a value classified as a Failure whose
`message` is exactly `m`; the sender's catch path is never reached and
`onError` is not invoked. -/
theorem C2_failure_roundTrip (m scope name : String) (req : Value)
    (ropts : ReceiverOptions) (sopts : SenderOptions)
    (proto : String → Handler) (sender : MessageSender) :
    roundTrip ropts sopts
        (singleRegistry name (fun _ _ => .ok (.fail (failure (.value (.str m))))))
        proto scope name req sender =
      some { outcome := .resolved (.fail ⟨m⟩), caught := none, onErrorInvoked := false }
    ∧ Res.isFailure (.fail ⟨m⟩) = true
    ∧ (Failure.mk m).message = m := by
  refine ⟨?_, rfl, rfl⟩
  rw [roundTrip_found ropts sopts
    (singleRegistry name (fun _ _ => .ok (.fail (failure (.value (.str m))))))
    proto scope name req sender (fun _ _ => .ok (.fail (failure (.value (.str m)))))
    (by simp [lookupHandler, singleRegistry])]
  rfl

/-- C3: for every structurally-cloneable value `x`, when the matched handler
returns `success(x)` the caller's call resolves with that very payload
(structured clone is the identity on `Value` data, so the resolved value is
deep-equal to `x`), classified as a Success; and `success()` with no argument
(payload `undefined`) is still classified as a Success, never as a
Failure. -/
theorem C3_success_roundTrip (x : Value) (scope name : String) (req : Value)
    (ropts : ReceiverOptions) (sopts : SenderOptions)
    (proto : String → Handler) (sender : MessageSender) :
    roundTrip ropts sopts
        (singleRegistry name (fun _ _ => .ok (.value (success x))))
        proto scope name req sender =
      some { outcome := .resolved (.value x), caught := none, onErrorInvoked := false }
    ∧ Res.isSuccess (.value x) = true
    ∧ Res.isFailure (.value (success .undefined)) = false := by
  refine ⟨?_, rfl, rfl⟩
  rw [roundTrip_found ropts sopts
    (singleRegistry name (fun _ _ => .ok (.value (success x))))
    proto scope name req sender (fun _ _ => .ok (.value (success x)))
    (by simp [lookupHandler, singleRegistry])]
  rfl

theorem errMsgOf_str (s : String) : errMsgOf (.value (.str s)) = s := rfl

/-- Computation of the sender's catch block. -/
theorem senderCatch_eq (opts : SenderOptions) (scope name : String) (e : JSVal) :
    senderCatch opts scope name e =
      match opts.onError with
      | none =>
          { outcome := .rejected ⟨scope, name, errMsgOf e⟩
            caught := some ⟨scope, name, errMsgOf e⟩, onErrorInvoked := false }
      | some hook =>
          match hook ⟨scope, name, errMsgOf e⟩ with
          | some f =>
              { outcome := .resolved (.fail f)
                caught := some ⟨scope, name, errMsgOf e⟩, onErrorInvoked := true }
          | none =>
              { outcome := .rejected ⟨scope, name, errMsgOf e⟩
                caught := some ⟨scope, name, errMsgOf e⟩, onErrorInvoked := true } := rfl

/-- A delivered envelope with a truthy (nonempty) string `error` property is
thrown into the sender's catch block. -/
theorem senderCall_error_env (opts : SenderOptions) (scope name : String)
    (s : String) (hs : s ≠ "") :
    senderCall opts scope name (.delivered { error := some (.str s) }) =
      senderCatch opts scope name (.value (.str s)) := by
  unfold senderCall
  simp [fieldVal, truthy, hs]

/-- C4 (counterexample): when the handler throws an exception whose message
is the empty string, the Dispatcher does reply `{ error: "" }`, but the
sender does not classify that envelope as a MessagingError: the empty error
string is falsy, so the call resolves with a reconstructed Failure and the
catch path is never reached. -/
theorem C4_handler_throw_counterexample :
    roundTrip ⟨true, false, true, false⟩ ⟨none⟩
        (singleRegistry "n" (fun _ _ => .throws (.errObj ⟨"Error", ""⟩)))
        protoSample "s" "n" .undefined () =
      some { outcome := .resolved (.fail ⟨"undefined"⟩)
             caught := none, onErrorInvoked := false }
    ∧ replyOf (Receiver.listener ⟨true, false, true, false⟩
        (singleRegistry "n" (fun _ _ => .throws (.errObj ⟨"Error", ""⟩)))
        protoSample "s" (requestMsg "s" "n" .undefined) ()) =
      some { error := some (.str "") } :=
  ⟨rfl, rfl⟩

/-- C4 (amended): if the matched handler's invocation throws (or its promise
rejects) with exception `e`, the Dispatcher replies
`{ error: e instanceof Error ? e.message : String(e) }` and never invokes the
`onResponse` hook for that dispatch; whenever that error string is nonempty
(truthy) the sender classifies the envelope as a MessagingError carrying
exactly that string — in particular, for `Error("boom")` with no `onError`
hook the call rejects with a MessagingError whose message is `"boom"`
(which contains `"boom"`). -/
theorem C4_handler_throw (ropts : ReceiverOptions) (handlers : Registry)
    (proto : String → Handler) (scope name : String) (req : Value)
    (sender : MessageSender) (handler : Handler) (e : JSVal)
    (hreg : handlers name = some handler)
    (hrun : handler req sender = .throws e) :
    replyOf (Receiver.listener ropts handlers proto scope (requestMsg scope name req) sender) =
      some { error := some (.str (errMsgOf e)) }
    ∧ (∀ ev ∈ (Receiver.listener ropts handlers proto scope
          (requestMsg scope name req) sender).events,
        ev.isOnResponseCall = false)
    ∧ (errMsgOf e ≠ "" → ∀ sopts : SenderOptions,
        roundTrip ropts sopts handlers proto scope name req sender =
          some (senderCatch sopts scope name (.value (.str (errMsgOf e)))) ∧
        (senderCatch sopts scope name (.value (.str (errMsgOf e)))).caught =
          some ⟨scope, name, errMsgOf e⟩)
    ∧ (∀ sopts : SenderOptions, sopts.onError = none → errMsgOf e ≠ "" →
        roundTrip ropts sopts handlers proto scope name req sender =
          some { outcome := .rejected ⟨scope, name, errMsgOf e⟩
                 caught := some ⟨scope, name, errMsgOf e⟩
                 onErrorInvoked := false }) := by
  have hlook := lookupHandler_own handlers proto name handler hreg
  have hl := Receiver.listener_found ropts handlers proto scope name req sender handler hlook
  refine ⟨?_, ?_, ?_, ?_⟩
  · rw [replyOf_listener_found ropts handlers proto scope name req sender handler hlook]
    simp only [hrun]
  · rw [hl]
    simp only [hrun]
    intro ev hev
    rcases List.mem_append.mp hev with h1 | h2
    · cases hb : ropts.onRequestConfigured <;> simp [hb] at h1
      subst h1
      rfl
    · simp at h2
      subst h2
      rfl
  · intro hne sopts
    rw [roundTrip_found ropts sopts handlers proto scope name req sender handler hlook]
    simp only [hrun]
    refine ⟨by rw [senderCall_error_env sopts scope name _ hne], ?_⟩
    rw [senderCatch_eq]
    rcases sopts with ⟨ho⟩
    cases ho with
    | none => simp [errMsgOf_str]
    | some hook =>
        cases hk : hook ⟨scope, name, errMsgOf (.value (.str (errMsgOf e)))⟩ <;>
          simp_all [errMsgOf_str]
  · intro sopts hnone hne
    rw [roundTrip_found ropts sopts handlers proto scope name req sender handler hlook]
    simp only [hrun]
    rw [senderCall_error_env sopts scope name _ hne, senderCatch_eq, hnone]
    simp [errMsgOf_str]

/-- C4 (witness): the amended claim evaluated for a handler that throws
`Error("boom")`, with no `onError` hook configured. -/
theorem C4_handler_throw_witness :
    roundTrip ⟨true, false, true, false⟩ ⟨none⟩
        (singleRegistry "n" (fun _ _ => .throws (.errObj ⟨"Error", "boom"⟩)))
        protoSample "s" "n" .undefined () =
      some { outcome := .rejected ⟨"s", "n", "boom"⟩
             caught := some ⟨"s", "n", "boom"⟩, onErrorInvoked := false } := by
  have h := C4_handler_throw ⟨true, false, true, false⟩
    (singleRegistry "n" (fun _ _ => .throws (.errObj ⟨"Error", "boom"⟩)))
    protoSample "s" "n" .undefined ()
    (fun _ _ => .throws (.errObj ⟨"Error", "boom"⟩)) (.errObj ⟨"Error", "boom"⟩)
    (by simp [singleRegistry]) rfl
  exact h.2.2.2 ⟨none⟩ rfl (by decide)

theorem senderCatch_caught (opts : SenderOptions) (scope name : String) (e : JSVal) :
    (senderCatch opts scope name e).caught = some ⟨scope, name, errMsgOf e⟩ := by
  rcases opts with ⟨ho⟩
  cases ho with
  | none => rfl
  | some hook =>
      simp only [senderCatch]
      cases hook ⟨scope, name, errMsgOf e⟩ <;> rfl

theorem senderCatch_onErrorInvoked (opts : SenderOptions) (scope name : String)
    (e : JSVal) :
    (senderCatch opts scope name e).onErrorInvoked = opts.onError.isSome := by
  rcases opts with ⟨ho⟩
  cases ho with
  | none => rfl
  | some hook =>
      simp only [senderCatch]
      cases hook ⟨scope, name, errMsgOf e⟩ <;> rfl

theorem senderCatch_outcome_noHook (opts : SenderOptions) (scope name : String)
    (e : JSVal) (h : opts.onError = none) :
    (senderCatch opts scope name e).outcome = .rejected ⟨scope, name, errMsgOf e⟩ := by
  simp only [senderCatch, h]

theorem senderCatch_outcome_hookFailure (opts : SenderOptions) (scope name : String)
    (e : JSVal) (hook : MessagingError → Option Failure) (f : Failure)
    (h : opts.onError = some hook) (hf : hook ⟨scope, name, errMsgOf e⟩ = some f) :
    (senderCatch opts scope name e).outcome = .resolved (.fail f) := by
  simp only [senderCatch, h, hf]

theorem senderCatch_outcome_hookVoid (opts : SenderOptions) (scope name : String)
    (e : JSVal) (hook : MessagingError → Option Failure)
    (h : opts.onError = some hook) (hn : hook ⟨scope, name, errMsgOf e⟩ = none) :
    (senderCatch opts scope name e).outcome = .rejected ⟨scope, name, errMsgOf e⟩ := by
  simp only [senderCatch, h, hn]

/-- `senderCall` on a delivered envelope, reduced to its two branches. -/
theorem senderCall_delivered (opts : SenderOptions) (scope name : String)
    (env : ResponseEnvelope) :
    senderCall opts scope name (.delivered env) =
      if truthy (fieldVal env.error) then
        senderCatch opts scope name (.value (fieldVal env.error))
      else
        { outcome := .resolved
            (if truthy (fieldVal env.success) then .value (fieldVal env.data)
             else .fail (failure (.value (fieldVal env.data))))
          caught := none, onErrorInvoked := false } := rfl

/-- C5: whenever a call produces a MessagingError (a transport-level send
failure, or a delivered envelope whose `error` is thrown), the `onError`
hook, if configured, is invoked; when the hook returns a Failure the call
resolves with exactly that Failure, otherwise the MessagingError is rejected
to the caller; and a call whose envelope came from an intentional handler
result (in particular a business Failure) never reaches the catch block, so
`onError` is never invoked for it. -/
theorem C5_onError_contract (sopts : SenderOptions) (scope name : String)
    (t : TransportOutcome) :
    ((senderCall sopts scope name t).onErrorInvoked =
      ((senderCall sopts scope name t).caught.isSome && sopts.onError.isSome))
    ∧ (∀ err : MessagingError, (senderCall sopts scope name t).caught = some err →
        (sopts.onError = none →
          (senderCall sopts scope name t).outcome = .rejected err)
        ∧ (∀ hook, sopts.onError = some hook →
            (∀ f, hook err = some f →
              (senderCall sopts scope name t).outcome = .resolved (.fail f))
            ∧ (hook err = none →
              (senderCall sopts scope name t).outcome = .rejected err)))
    ∧ (∀ res : Res, t = .delivered (encodeResult res) →
        (senderCall sopts scope name t).caught = none ∧
        (senderCall sopts scope name t).onErrorInvoked = false) := by
  have hparts : ∀ e : JSVal,
      ((senderCatch sopts scope name e).onErrorInvoked =
        ((senderCatch sopts scope name e).caught.isSome && sopts.onError.isSome))
      ∧ (∀ err : MessagingError, (senderCatch sopts scope name e).caught = some err →
          (sopts.onError = none →
            (senderCatch sopts scope name e).outcome = .rejected err)
          ∧ (∀ hook, sopts.onError = some hook →
              (∀ f, hook err = some f →
                (senderCatch sopts scope name e).outcome = .resolved (.fail f))
              ∧ (hook err = none →
                (senderCatch sopts scope name e).outcome = .rejected err))) := by
    intro e
    constructor
    · rw [senderCatch_onErrorInvoked, senderCatch_caught]
      rfl
    · intro err herr
      rw [senderCatch_caught] at herr
      injection herr with herr
      subst herr
      exact ⟨fun hnone => senderCatch_outcome_noHook sopts scope name e hnone,
        fun hook hh =>
          ⟨fun f hf => senderCatch_outcome_hookFailure sopts scope name e hook f hh hf,
           fun hn => senderCatch_outcome_hookVoid sopts scope name e hook hh hn⟩⟩
  cases t with
  | failed e =>
      have hs : senderCall sopts scope name (.failed e) =
          senderCatch sopts scope name e := rfl
      rw [hs]
      refine ⟨(hparts e).1, (hparts e).2, ?_⟩
      intro res h2
      exact TransportOutcome.noConfusion h2
  | delivered env =>
      rw [senderCall_delivered]
      by_cases he : truthy (fieldVal env.error) = true
      · rw [if_pos he]
        refine ⟨(hparts _).1, (hparts _).2, ?_⟩
        rintro res h2
        injection h2 with h2
        subst h2
        rw [show fieldVal (encodeResult res).error = Value.undefined from rfl] at he
        exact Bool.noConfusion he
      · rw [if_neg he]
        refine ⟨rfl, ?_, ?_⟩
        · intro err herr
          exact Option.noConfusion herr
        · intro res h2
          exact ⟨rfl, rfl⟩

/-- C5 (witness): a transport failure with an `onError` hook returning
`failure("fallback")` resolves with exactly that Failure; the same call with
no hook rejects with the MessagingError. -/
theorem C5_onError_witness :
    (senderCall ⟨some (fun _ => some ⟨"fallback"⟩)⟩ "s" "n"
        (.failed (.errObj ⟨"Error", "x"⟩))).outcome = .resolved (.fail ⟨"fallback"⟩)
    ∧ (senderCall ⟨none⟩ "s" "n"
        (.failed (.errObj ⟨"Error", "x"⟩))).outcome = .rejected ⟨"s", "n", "x"⟩ := by
  constructor
  · exact ((C5_onError_contract ⟨some (fun _ => some ⟨"fallback"⟩)⟩ "s" "n"
      (.failed (.errObj ⟨"Error", "x"⟩))).2.1 ⟨"s", "n", "x"⟩ rfl).2
      (fun _ => some ⟨"fallback"⟩) rfl |>.1 ⟨"fallback"⟩ rfl
  · exact ((C5_onError_contract ⟨none⟩ "s" "n"
      (.failed (.errObj ⟨"Error", "x"⟩))).2.1 ⟨"s", "n", "x"⟩ rfl).1 rfl

/-- C6 (counterexample): on a completely fresh registry, registering a
handler under the name `toString` — never registered, but a key the
plain-object registry inherits from `Object.prototype`, so
`name in this._handlers` is already true — throws the duplicate-name error
and stores nothing; this refutes the claim that registering under every name
not yet present succeeds. -/
theorem C6_registry_counterexample :
    ((fun _ => none : Registry) "toString" = none)
    ∧ Receiver.on "s" (fun _ => none) "toString"
        (fun _ _ => .ok (.value .undefined)) =
      .error "同じ名前のハンドラーは複数登録できません。（スコープ: \"s\", 名前: \"toString\"）"
    ∧ registryAfter "s" (fun _ => none) "toString"
        (fun _ _ => .ok (.value .undefined)) "toString" = none :=
  ⟨rfl, rfl, rfl⟩

/-- C6 (amended): registering a handler under a name at which
`name in this._handlers` finds a binding — a name already registered in this
scope, or one of `Object.prototype`'s property keys (such as `toString`),
which the plain-object registry inherits — throws an error and leaves the
registry unchanged (a previously registered handler still answers);
registering under any other name stores exactly that handler and changes no
other binding.  In particular every already-registered name throws. -/
theorem C6_registry (selfScope : String) (handlers : Registry) (name : String)
    (handler : Handler) :
    (nameIn handlers name = true →
      (∃ msg, Receiver.on selfScope handlers name handler = .error msg)
      ∧ registryAfter selfScope handlers name handler = handlers)
    ∧ (nameIn handlers name = false →
      Receiver.on selfScope handlers name handler =
        .ok (registryAfter selfScope handlers name handler)
      ∧ registryAfter selfScope handlers name handler name = some handler
      ∧ ∀ n, n ≠ name → registryAfter selfScope handlers name handler n = handlers n)
    ∧ ((handlers name).isSome = true → nameIn handlers name = true) := by
  refine ⟨?_, ?_, ?_⟩
  · intro hdup
    have hon : Receiver.on selfScope handlers name handler =
        .error ("同じ名前のハンドラーは複数登録できません。（スコープ: \"" ++ selfScope
          ++ "\", 名前: \"" ++ name ++ "\"）") := by
      unfold Receiver.on
      rw [if_pos hdup]
    exact ⟨⟨_, hon⟩, by unfold registryAfter; rw [hon]⟩
  · intro hfree
    have hnot : ¬ nameIn handlers name = true := by
      rw [hfree]
      simp
    have hon : Receiver.on selfScope handlers name handler =
        .ok (fun n => if n = name then some handler else handlers n) := by
      unfold Receiver.on
      rw [if_neg hnot]
    have hafter : registryAfter selfScope handlers name handler =
        (fun n => if n = name then some handler else handlers n) := by
      unfold registryAfter
      rw [hon]
    refine ⟨by rw [hon, hafter], ?_, ?_⟩
    · rw [hafter]
      simp
    · intro n hn
      rw [hafter]
      simp [hn]
  · intro hsome
    unfold nameIn
    rw [hsome]
    rfl

/-- C6 (witness): a duplicate registration under the registered name `"a"`
throws and keeps the old binding; a registration under the fresh name `"b"`
(neither registered nor an `Object.prototype` key) stores the new
handler. -/
theorem C6_registry_witness :
    (∃ msg, Receiver.on "s" (singleRegistry "a" (fun _ _ => .ok (.value .undefined)))
        "a" (fun _ _ => .ok (.value .null)) = .error msg)
    ∧ registryAfter "s" (singleRegistry "a" (fun _ _ => .ok (.value .undefined)))
        "a" (fun _ _ => .ok (.value .null)) =
      singleRegistry "a" (fun _ _ => .ok (.value .undefined))
    ∧ registryAfter "s" (singleRegistry "a" (fun _ _ => .ok (.value .undefined)))
        "b" (fun _ _ => .ok (.value .null)) "b" =
      some (fun _ _ => .ok (.value .null)) := by
  have h1 := (C6_registry "s" (singleRegistry "a" (fun _ _ => .ok (.value .undefined)))
    "a" (fun _ _ => .ok (.value .null))).1 rfl
  have h2 := ((C6_registry "s" (singleRegistry "a" (fun _ _ => .ok (.value .undefined)))
    "b" (fun _ _ => .ok (.value .null))).2.1) rfl
  exact ⟨h1.1, h1.2, h2.2.1⟩

/-- C7 (counterexample): in a successful dispatch with both hooks configured,
the listener's event trace is `onRequest`, then `onResponse`, then the reply:
the `onResponse` hook fires at index 1, strictly before the reply envelope is
sent at index 2 — not after the reply as claimed. -/
theorem C7_order_counterexample :
    (Receiver.listener ⟨true, false, true, false⟩
        (singleRegistry "n" (fun _ _ => .ok (.value .undefined))) protoSample "s"
        (requestMsg "s" "n" .undefined) ()).events =
      [.onRequestCall "s" "n" .undefined,
       .onResponseCall "s" "n" .undefined (.value .undefined),
       .reply (encodeResult (.value .undefined))]
    ∧ (Receiver.listener ⟨true, false, true, false⟩
        (singleRegistry "n" (fun _ _ => .ok (.value .undefined))) protoSample "s"
        (requestMsg "s" "n" .undefined) ()).events.findIdx? Event.isOnResponseCall = some 1
    ∧ (Receiver.listener ⟨true, false, true, false⟩
        (singleRegistry "n" (fun _ _ => .ok (.value .undefined))) protoSample "s"
        (requestMsg "s" "n" .undefined) ()).events.findIdx? Event.isReply = some 2 :=
  ⟨rfl, rfl, rfl⟩

/-- C7 (amended): within one successful dispatch the Dispatcher invokes the
`onResponse` hook — with the original, pre-encoding handler result — after
the handler completes but before encoding and sending the reply; the reply
envelope is nevertheless always sent and equals the encoded result, and
exceptions thrown by the hooks (which are caught and only logged) never
alter the listener's replies or its return value. -/
theorem C7_onResponse_order (opts : ReceiverOptions) (handlers : Registry)
    (proto : String → Handler) (scope name : String) (req : Value)
    (sender : MessageSender) (handler : Handler) (res : Res)
    (hreg : handlers name = some handler)
    (hrun : handler req sender = .ok res)
    (hcfg : opts.onResponseConfigured = true) :
    (Receiver.listener opts handlers proto scope (requestMsg scope name req) sender).events =
      (if opts.onRequestConfigured then [Event.onRequestCall scope name req] else [])
        ++ [.onResponseCall scope name req res, .reply (encodeResult res)]
    ∧ ∀ b₁ b₂ : Bool,
        Receiver.listener
            { opts with onRequestThrows := b₁, onResponseThrows := b₂ }
            handlers proto scope (requestMsg scope name req) sender =
          Receiver.listener opts handlers proto scope (requestMsg scope name req) sender := by
  have hlook := lookupHandler_own handlers proto name handler hreg
  constructor
  · rw [Receiver.listener_found opts handlers proto scope name req sender handler hlook]
    simp only [hrun, hcfg]
    simp
  · intro b₁ b₂
    rw [Receiver.listener_found opts handlers proto scope name req sender handler hlook,
      Receiver.listener_found { opts with onRequestThrows := b₁, onResponseThrows := b₂ }
        handlers proto scope name req sender handler hlook]

/-- C7 (witness): the amended ordering evaluated on a concrete dispatch with
both hooks configured. -/
theorem C7_onResponse_order_witness :
    (Receiver.listener ⟨true, true, true, true⟩
        (singleRegistry "n" (fun _ _ => .ok (.fail ⟨"m"⟩))) protoSample "s"
        (requestMsg "s" "n" .null) ()).events =
      [.onRequestCall "s" "n" .null,
       .onResponseCall "s" "n" .null (.fail ⟨"m"⟩),
       .reply (encodeResult (.fail ⟨"m"⟩))] := by
  have h := (C7_onResponse_order ⟨true, true, true, true⟩
    (singleRegistry "n" (fun _ _ => .ok (.fail ⟨"m"⟩))) protoSample "s" "n" .null ()
    (fun _ _ => .ok (.fail ⟨"m"⟩)) (.fail ⟨"m"⟩)
    (by simp [singleRegistry]) rfl rfl).1
  simpa using h

/-- C8 (counterexample): an accepted message (well-formed envelope, matching
scope) whose name has no registered handler is answered synchronously with
the handler-missing error envelope, but the listener returns `undefined`
(`none` here), not `true`. -/
theorem C8_retval_counterexample :
    (Receiver.listener ⟨true, false, true, false⟩ (fun _ => none) protoSample "s"
        (requestMsg "s" "n" .undefined) ()).retVal = none
    ∧ replyOf (Receiver.listener ⟨true, false, true, false⟩ (fun _ => none) protoSample "s"
        (requestMsg "s" "n" .undefined) ()) =
      some { error := some (.str "ハンドラーが未定義です。") }
    ∧ (none : Option Bool) ≠ some true :=
  ⟨rfl, rfl, by simp⟩

/-- C8 (amended): for every accepted incoming message (well-formed envelope,
scope equal to the Dispatcher's scope), the listener returns `true` exactly
when the lookup `this._handlers[name]` finds a value — an own registered
handler, or, with no registration at all, the member inherited from
`Object.prototype` for names such as `toString`; when the lookup finds
nothing the listener replies synchronously with the handler-missing error
envelope and returns `undefined`. -/
theorem C8_retval (opts : ReceiverOptions) (handlers : Registry)
    (proto : String → Handler) (scope name : String) (req : Value)
    (sender : MessageSender) :
    (Receiver.listener opts handlers proto scope (requestMsg scope name req) sender).retVal =
      (if (lookupHandler handlers proto name).isSome then some true else none)
    ∧ (lookupHandler handlers proto name = none →
        replyOf (Receiver.listener opts handlers proto scope (requestMsg scope name req) sender) =
          some { error := some (.str "ハンドラーが未定義です。") })
    ∧ (handlers name = none → objectProtoKeys.contains name = true →
        (Receiver.listener opts handlers proto scope
            (requestMsg scope name req) sender).retVal = some true) := by
  cases hlook : lookupHandler handlers proto name with
  | none =>
      have hl : Receiver.listener opts handlers proto scope (requestMsg scope name req) sender =
          { retVal := none
            events := [.reply { error := some (.str "ハンドラーが未定義です。") }] } := by
        simp [Receiver.listener, typedMsg_requestMsg, getField_requestMsg_scope,
          getField_requestMsg_name, getField_requestMsg_req, asStr, hlook]
      rw [hl]
      refine ⟨by simp, fun _ => rfl, ?_⟩
      intro h1 h2
      simp [lookupHandler, h1] at hlook
      simp at h2
      exact absurd h2 hlook
  | some handler =>
      rw [Receiver.listener_found opts handlers proto scope name req sender handler hlook]
      refine ⟨?_, fun h => by simp [hlook] at h, ?_⟩
      · cases handler req sender <;> simp
      · intro _ _
        cases handler req sender <;> rfl

/-- C9 (counterexample): `failure()` with no argument passes `undefined`
through `String(data)` (`src/utils/Failure.ts` lines 58–60), so the
constructed Failure's message is the string `"undefined"`, not the empty
string. -/
theorem C9_failure_noarg_counterexample :
    (failure (.value .undefined)).message = "undefined"
    ∧ (failure (.value .undefined)).message ≠ "" :=
  ⟨rfl, by decide⟩

/-- C9 (amended): `failure()` called with no argument (`src/utils/Failure.ts`)
constructs a Failure whose message is the string `"undefined"` — the
`String(data)` rendering of the missing argument — while the revision at
`src/utils/response.ts` lines 73–78 yields the empty string; `failure(e)` for
an `Error` `e` constructs a Failure whose message is the stringified error in
both revisions; and for any input the constructed value classifies as a
Failure whose message field is a string. -/
theorem C9_failure_constructor :
    (failure (.value .undefined)).message = "undefined"
    ∧ (failureV none).message = ""
    ∧ (∀ e : JSError, (failure (.errObj e)).message = JSError.toStr e)
    ∧ (∀ e : JSError, (failureV (some (.inr e))).message = JSError.toStr e)
    ∧ (∀ d : JSVal, Res.isFailure (.fail (failure d)) = true)
    ∧ (∀ d : JSVal, (failure d).message = JSVal.toStr d) :=
  ⟨rfl, rfl, fun _ => rfl, fun _ => rfl, fun _ => rfl, fun _ => rfl⟩

/-- C10: the sender classifies a delivered response envelope as a
dispatch-level MessagingError (enters the catch block) exactly when the
envelope's `error` property is truthy; consequently, when the handler throws
an exception whose message is the empty string, the Receiver replies
`{ error: "" }`, the falsy error string is not thrown, and the caller falls
through to the success/data decoding path and resolves with a reconstructed
Failure (`failure(undefined)`, message `"undefined"`). -/
theorem C10_error_truthiness :
    (∀ (sopts : SenderOptions) (scope name : String) (env : ResponseEnvelope),
      (senderCall sopts scope name (.delivered env)).caught.isSome =
        truthy (fieldVal env.error))
    ∧ (∀ (ropts : ReceiverOptions) (sopts : SenderOptions)
        (proto : String → Handler) (scope name : String) (req : Value)
        (sender : MessageSender),
        replyOf (Receiver.listener ropts
            (singleRegistry name (fun _ _ => .throws (.errObj ⟨"Error", ""⟩)))
            proto scope (requestMsg scope name req) sender) =
          some { error := some (.str "") }
        ∧ roundTrip ropts sopts
            (singleRegistry name (fun _ _ => .throws (.errObj ⟨"Error", ""⟩)))
            proto scope name req sender =
          some { outcome := .resolved (.fail ⟨"undefined"⟩)
                 caught := none, onErrorInvoked := false }) := by
  constructor
  · intro sopts scope name env
    rw [senderCall_delivered]
    by_cases he : truthy (fieldVal env.error) = true
    · rw [if_pos he, senderCatch_caught, he]
      rfl
    · rw [if_neg he]
      simp only [Bool.not_eq_true] at he
      rw [he]
      rfl
  · intro ropts sopts proto scope name req sender
    constructor
    · rw [replyOf_listener_found ropts
        (singleRegistry name (fun _ _ => .throws (.errObj ⟨"Error", ""⟩)))
        proto scope name req sender (fun _ _ => .throws (.errObj ⟨"Error", ""⟩))
        (by simp [lookupHandler, singleRegistry])]
      rfl
    · rw [roundTrip_found ropts sopts
        (singleRegistry name (fun _ _ => .throws (.errObj ⟨"Error", ""⟩)))
        proto scope name req sender (fun _ _ => .throws (.errObj ⟨"Error", ""⟩))
        (by simp [lookupHandler, singleRegistry])]
      rfl
